import Mathlib

/-!
Shallow embedding of the form-validation core of the repository
(`src/form_validation.py`, variant A / batch mode, and
`src/form_validation2.py`, variant B / live mode).

Conventions of the embedding:
* Python strings are Lean `String`s; all matching is done on `String.toList`.
  The regex character classes used by the code are explicit ASCII classes
  (`[A-Za-z]`, `[0-9]`, ...), which translate exactly; `\s` is modelled by the
  ASCII whitespace characters.  `re.match(p, s)` with a `$`-terminated pattern
  is modelled as a full match of the string.
* Python `date` values are modelled by their proleptic-Gregorian ordinal
  (`date.toordinal`), a `Nat`; comparison of dates is comparison of ordinals
  and `timedelta(days = n)` is `+ n`.  `date.today()` is a parameter `t`.
* A validator returns `Bool × String`, the Python pair `(is_valid, message)`.
-/

/-- ASCII whitespace, the characters matched by `\s` on ASCII input:
space, tab, newline, vertical tab, form feed, carriage return. -/
def isPySpace (c : Char) : Bool :=
  c = ' ' || c = Char.ofNat 9 || c = Char.ofNat 10 || c = Char.ofNat 11 ||
  c = Char.ofNat 12 || c = Char.ofNat 13

/-- The class `[A-Za-z\s-]` of `validate_name` in `form_validation.py`. -/
def isNameCharA (c : Char) : Bool :=
  c.isAlpha || isPySpace c || c = '-'

/-- The class `[a-zA-Z'\s\-]` of `validate_name` in `form_validation2.py`
(also allows the apostrophe). -/
def isNameCharB (c : Char) : Bool :=
  c.isAlpha || c = Char.ofNat 39 || isPySpace c || c = '-'

/-- `re.match(r'^[A-Za-z\s-]+$', name)`: nonempty and every character in the
class. -/
def nameMatchA (s : String) : Bool :=
  !s.toList.isEmpty && s.toList.all isNameCharA

/-- `re.match(r"^[a-zA-Z'\s\-]{2,50}$", name)`: length between 2 and 50 and
every character in the class. -/
def nameMatchB (s : String) : Bool :=
  2 ≤ s.toList.length && s.toList.length ≤ 50 && s.toList.all isNameCharB

/-- `validate_name` of `src/form_validation.py` (variant A):
required, then charset, then length ≥ 2; first violated rule wins. -/
def validate_name (name field_name : String) : Bool × String :=
  if name = "" then (false, field_name ++ " is required")
  else if !nameMatchA name then
    (false, field_name ++ " should only contain letters, spaces, and hyphens")
  else if name.toList.length < 2 then
    (false, field_name ++ " should be at least 2 characters long")
  else (true, "")

/-- `validate_name` of `src/form_validation2.py` (variant B). -/
def validate_name2 (name field_name : String) : Bool × String :=
  if name = "" then (false, field_name ++ " is required")
  else if !nameMatchB name then
    (false, field_name ++
      " must contain only letters, spaces, hyphens, or apostrophes (2-50 characters)")
  else (true, "")

/-- The class `[a-zA-Z0-9._%+-]` (local part of the email pattern). -/
def isEmailLocalChar (c : Char) : Bool :=
  c.isAlpha || c.isDigit || c = '.' || c = '_' || c = '%' || c = '+' || c = '-'

/-- The class `[a-zA-Z0-9.-]` (domain part of the email pattern). -/
def isEmailDomChar (c : Char) : Bool :=
  c.isAlpha || c.isDigit || c = '.' || c = '-'

/-- Match of `[a-zA-Z0-9.-]+\.[a-zA-Z]{2,}$` against `r`: some split
`r = d ++ '.' :: tld` with `d` nonempty in the domain class and `tld` an
alphabetic run of length ≥ 2 reaching the end of the string. -/
def emailDomainMatch (r : List Char) : Bool :=
  (List.range r.length).any fun i =>
    decide (1 ≤ i) && (r.take i).all isEmailDomChar &&
    ((r.drop i).head? == some '.') &&
    decide (2 ≤ (r.drop (i + 1)).length) && (r.drop (i + 1)).all Char.isAlpha

/-- `re.match(r'^[a-zA-Z0-9._%+-]+@[a-zA-Z0-9.-]+\.[a-zA-Z]{2,}$', email)`.
`@` is in none of the classes, so the local part is forced to be the maximal
prefix of local-class characters, followed by a literal `@`. -/
def emailMatch (s : String) : Bool :=
  let cs := s.toList
  let l := cs.takeWhile isEmailLocalChar
  !l.isEmpty && (cs.drop l.length).head? = some '@' &&
    emailDomainMatch (cs.drop (l.length + 1))

/-- `validate_email` of `src/form_validation.py`. -/
def validate_email (email : String) : Bool × String :=
  if !emailMatch email then (false, "Please enter a valid email address")
  else (true, "")

/-- `validate_email` of `src/form_validation2.py` (adds a required check;
same pattern). -/
def validate_email2 (email : String) : Bool × String :=
  if email = "" then (false, "Email is required")
  else if !emailMatch email then (false, "Invalid email format")
  else (true, "")

/-- The separator class `[-. ]` of the phone pattern. -/
def isPhoneSep (c : Char) : Bool :=
  c = '-' || c = '.' || c = ' '

/-- Consume one character satisfying `p` if present (`?` on a one-character
class; deterministic here because the following pattern element never starts
with a character of `p`). -/
def eatOpt (p : Char → Bool) : List Char → List Char
  | [] => []
  | c :: rest => if p c then rest else c :: rest

/-- Consume exactly `n` digits (`[0-9]{n}`). -/
def eatDigits : Nat → List Char → Option (List Char)
  | 0, cs => some cs
  | _ + 1, [] => none
  | n + 1, c :: cs => if c.isDigit then eatDigits n cs else none

/-- `re.match(r'^\(?([0-9]{3})\)?[-. ]?([0-9]{3})[-. ]?([0-9]{4})$', phone)`. -/
def phoneMatchA (s : String) : Bool :=
  let cs := eatOpt (· = '(') s.toList
  match eatDigits 3 cs with
  | none => false
  | some cs =>
    let cs := eatOpt (· = ')') cs
    let cs := eatOpt isPhoneSep cs
    match eatDigits 3 cs with
    | none => false
    | some cs =>
      let cs := eatOpt isPhoneSep cs
      match eatDigits 4 cs with
      | none => false
      | some cs => cs.isEmpty

/-- `validate_phone` of `src/form_validation.py` (variant A). -/
def validate_phone (phone : String) : Bool × String :=
  if !phoneMatchA phone then (false, "Please enter a valid phone number")
  else (true, "")

/-- `re.sub(r'[\s\-\(\)]', '', phone)`: drop whitespace, hyphens and
parentheses. -/
def cleanPhone (s : String) : List Char :=
  s.toList.filter fun c => !(isPySpace c || c = '-' || c = '(' || c = ')')

/-- `validate_phone` of `src/form_validation2.py` (variant B): after
cleaning, `re.match(r'^[0-9]{10}$', clean_phone)`, i.e. exactly ten digits. -/
def validate_phone2 (phone : String) : Bool × String :=
  if phone = "" then (false, "Phone number is required")
  else if !((cleanPhone phone).length == 10 && (cleanPhone phone).all Char.isDigit) then
    (false, "Phone must be 10 digits")
  else (true, "")

/-- After the first digit of a Python integer literal body: any sequence of
digits in which each underscore sits between two digits. -/
def pyDigitsTail : List Char → Bool
  | [] => true
  | '_' :: c :: rest => c.isDigit && pyDigitsTail rest
  | '_' :: [] => false
  | c :: rest => c.isDigit && pyDigitsTail rest

/-- Digit run of a Python decimal integer: nonempty, starts with a digit,
underscores only between digits. -/
def pyDigits : List Char → Bool
  | [] => false
  | c :: rest => c.isDigit && pyDigitsTail rest

/-- Numeric value of a digit run (underscores skipped). -/
def digitsVal (cs : List Char) : Nat :=
  cs.foldl (fun acc c => if c.isDigit then acc * 10 + (c.toNat - 48) else acc) 0

/-- `int(s)` for a Python `str`: strip surrounding whitespace, optional
sign, then a decimal digit run (underscores allowed between digits);
`none` models `ValueError`. -/
def pyInt (s : String) : Option Int :=
  let cs := ((s.toList.dropWhile isPySpace).reverse.dropWhile isPySpace).reverse
  match cs with
  | '+' :: rest => if pyDigits rest then some (digitsVal rest) else none
  | '-' :: rest => if pyDigits rest then some (-(digitsVal rest : Int)) else none
  | rest => if pyDigits rest then some (digitsVal rest) else none

/-- `validate_age` of `src/form_validation.py`: `int(age)` inside
`try/except ValueError`, then the bound check `0 ≤ age ≤ 120`. -/
def validate_age (age : String) : Bool × String :=
  match pyInt age with
  | none => (false, "Please enter a valid number")
  | some a =>
    if a < 0 || a > 120 then (false, "Age must be between 0 and 120")
    else (true, "")

/-- `validate_age` of `src/form_validation.py` as called from `main`, where
`age` comes from `st.number_input` and is already an `int` (so `int(age)`
is the identity and never raises). -/
def validateAgeInt (a : Int) : Bool × String :=
  if a < 0 || a > 120 then (false, "Age must be between 0 and 120")
  else (true, "")

/-- `validate_age` of `src/form_validation2.py` (variant B): the argument is
the `int` from `st.number_input`; positivity then upper bound. -/
def validate_age2 (age : Int) : Bool × String :=
  if age ≤ 0 then (false, "Age must be greater than 0")
  else if age > 120 then (false, "Age must be less than 120")
  else (true, "")

/-- Gregorian leap year (`calendar`-style rule used by `datetime.date`). -/
def isLeap (y : Nat) : Bool :=
  y % 4 == 0 && (y % 100 != 0 || y % 400 == 0)

/-- Days in the months before month `m` of year `y`. -/
def daysBeforeMonth (y m : Nat) : Nat :=
  ([31, 28, 31, 30, 31, 30, 31, 31, 30, 31, 30, 31].take (m - 1)).sum +
    (if 2 < m && isLeap y then 1 else 0)

/-- `date(y, m, d).toordinal()`: days since 0001-01-00 in the proleptic
Gregorian calendar (so `toOrdinal 1 1 1 = 1`, as in Python). -/
def toOrdinal (y m d : Nat) : Nat :=
  365 * (y - 1) + (y - 1) / 4 - (y - 1) / 100 + (y - 1) / 400 +
    daysBeforeMonth y m + d

/-- `validate_date` of `src/form_validation.py` (variant A): dates are
ordinals, `t` is `date.today()`, the default `earliest_date` is 1990-01-01
and `max_future_date = today + timedelta(days=5*365)`.  The first message
interpolates `earliest_date.strftime('%Y-%m-%d')`, which is the constant
string `1990-01-01` at the default argument. -/
def validate_date (input_date t : Nat) : Bool × String :=
  if input_date < toOrdinal 1990 1 1 then
    (false, "Date must be after 1990-01-01")
  else if input_date > t + 5 * 365 then
    (false, "Date cannot be more than 5 years in the future")
  else (true, "")

/-- `validate_date` of `src/form_validation2.py` (variant B): a missing date
(`None`, the only falsy value here since `date` objects are truthy) is
required; otherwise the date must not be after today. -/
def validate_date2 (check_date : Option Nat) (t : Nat) : Bool × String :=
  match check_date with
  | none => (false, "Date is required")
  | some d =>
    if d > t then (false, "Date cannot be in the future")
    else (true, "")

/-- The stored `form_data['age']` of `src/form_validation.py`: initialised
and cleared to the empty string `''`, replaced by the widget `int` after a
successful submit.  Both `''` and `0` are falsy in the widget expression
`0 if not st.session_state.form_data['age'] else int(...)`. -/
inductive AgeVal where
  | emptyStr : AgeVal
  | num : Int → AgeVal
deriving DecidableEq, Repr

/-- `st.session_state.form_data` of `src/form_validation.py`: raw value per
field plus the `submitted` flag.  Dates are ordinals. -/
structure FormData where
  first_name : String
  last_name : String
  email : String
  phone : String
  age : AgeVal
  birth_date : Nat
  start_date : Nat
  end_date : Nat
  submitted : Bool
deriving DecidableEq, Repr

/-- The initial `form_data` of `src/form_validation.py` at session start
(`t` is `date.today()`): empty strings, today's dates except
`end_date = today + timedelta(days=1)`, not submitted. -/
def initFormData (t : Nat) : FormData :=
  { first_name := "", last_name := "", email := "", phone := "",
    age := AgeVal.emptyStr, birth_date := t, start_date := t,
    end_date := t + 1, submitted := false }

/-- The widget values read inside the form of `src/form_validation.py` at
the moment the submit button fires: text inputs are strings, `age` is the
`int` of `st.number_input`, the dates are ordinals from `st.date_input`. -/
structure FormInputs where
  first_name : String
  last_name : String
  email : String
  phone : String
  age : Int
  birth_date : Nat
  start_date : Nat
  end_date : Nat
deriving DecidableEq, Repr

/-- The `validations` list built by `main` of `src/form_validation.py` on
submit (lines 222-230): one `(is_valid, message)` pair per field, the last
entry the date-range pair `(start_date < end_date, "Start date must be
before end date")`. -/
def validationsV1 (inp : FormInputs) (t : Nat) : List (Bool × String) :=
  [validate_name inp.first_name "First name",
   validate_name inp.last_name "Last name",
   validate_email inp.email,
   validate_phone inp.phone,
   validateAgeInt inp.age,
   validate_date inp.birth_date t,
   (decide (inp.start_date < inp.end_date), "Start date must be before end date")]

/-- `all(v[0] for v in validations)`: the aggregate validity verdict of
variant A. -/
def isFormValidV1 (inp : FormInputs) (t : Nat) : Bool :=
  (validationsV1 inp t).all (·.1)

/-- The messages surfaced by the failure branch of `main` (lines 248-252):
the message of every validation whose verdict is false, in list order. -/
def computeMessagesV1 (inp : FormInputs) (t : Nat) : List String :=
  ((validationsV1 inp t).filter (fun v => !v.1)).map (·.2)

/-- Result of the submit action: the returned verdict, the surfaced
messages, and the session `form_data` after the action. -/
structure SubmitResult where
  success : Bool
  messages : List String
  data : FormData
deriving DecidableEq, Repr

/-- The submit branch of `main` in `src/form_validation.py` (lines
219-252): if every validation passes, `form_data` is overwritten with the
widget values and `submitted = True`; otherwise every failing message is
shown and `form_data` is left untouched. -/
def submitForm (inp : FormInputs) (fd : FormData) (t : Nat) : SubmitResult :=
  if isFormValidV1 inp t then
    { success := true, messages := [],
      data := { first_name := inp.first_name, last_name := inp.last_name,
                email := inp.email, phone := inp.phone,
                age := AgeVal.num inp.age, birth_date := inp.birth_date,
                start_date := inp.start_date, end_date := inp.end_date,
                submitted := true } }
  else
    { success := false, messages := computeMessagesV1 inp t, data := fd }

/-- The clear branch of `main` in `src/form_validation.py` (lines
255-265): every key of `form_data` is reset — date fields to
`date.today()`, `submitted` to `False`, every other field to `''`. -/
def clearForm (fd : FormData) (t : Nat) : FormData :=
  { fd with first_name := "", last_name := "", email := "", phone := "",
            age := AgeVal.emptyStr, birth_date := t, start_date := t,
            end_date := t, submitted := false }

/-- `st.session_state` of `src/form_validation2.py`, restricted to the keys
the program uses.  Fields record the value that `st.session_state.get(key,
default)` returns: widget-backed text keys default to `''`, `age` to `0`,
dates are `none` when unset (`st.session_state.get('birth_date')`), and the
validity flags default to `False`. -/
structure SessionV2 where
  first_name : String
  last_name : String
  email : String
  phone : String
  age : Int
  birth_date : Option Nat
  start_date : Option Nat
  end_date : Option Nat
  first_name_valid : Bool
  last_name_valid : Bool
  email_valid : Bool
  phone_valid : Bool
  age_valid : Bool
  birth_date_valid : Bool
  start_date_valid : Bool
  end_date_valid : Bool
  form_submitted : Bool
deriving DecidableEq, Repr

/-- `get_validation_status` of `src/form_validation2.py` (lines 47-106):
per field, if the cached validity flag is unset, either re-run the
validator on a nonempty value and collect its failure message, or report
the field as required; finally the date-range check.  `t` is
`date.today()`. -/
def get_validation_status (s : SessionV2) (t : Nat) : List String :=
  (if !s.first_name_valid then
    (if s.first_name ≠ "" then
      (let v := validate_name2 s.first_name "First name"
       if !v.1 then [v.2] else [])
     else ["First name is required"])
   else []) ++
  (if !s.last_name_valid then
    (if s.last_name ≠ "" then
      (let v := validate_name2 s.last_name "Last name"
       if !v.1 then [v.2] else [])
     else ["Last name is required"])
   else []) ++
  (if !s.email_valid then
    (if s.email ≠ "" then
      (let v := validate_email2 s.email
       if !v.1 then [v.2] else [])
     else ["Email is required"])
   else []) ++
  (if !s.phone_valid then
    (if s.phone ≠ "" then
      (let v := validate_phone2 s.phone
       if !v.1 then [v.2] else [])
     else ["Phone number is required"])
   else []) ++
  (if !s.age_valid then
    (if s.age > 0 then
      (let v := validate_age2 s.age
       if !v.1 then [v.2] else [])
     else ["Age is required"])
   else []) ++
  (if !s.birth_date_valid then
    (match s.birth_date with
     | some _ =>
       let v := validate_date2 s.birth_date t
       if !v.1 then [v.2] else []
     | none => ["Birth date is required"])
   else []) ++
  (match s.start_date, s.end_date with
   | some a, some b => if a ≥ b then ["Start date must be before end date"] else []
   | _, _ => [])

/-- `all_valid = not get_validation_status()` (line 303 of
`src/form_validation2.py`): the aggregate validity verdict of variant B is
the emptiness of the message list. -/
def isFormValidV2 (s : SessionV2) (t : Nat) : Bool :=
  (get_validation_status s t).isEmpty

/-- The date-range block of `main` in `src/form_validation2.py` (lines
274-282): when both dates are present, a reversed or equal range sets both
`start_date_valid` and `end_date_valid` to `False`, a proper range sets
both to `True`; otherwise the flags are untouched. -/
def updateRangeFlags (s : SessionV2) : SessionV2 :=
  match s.start_date, s.end_date with
  | some a, some b =>
    if a ≥ b then { s with start_date_valid := false, end_date_valid := false }
    else { s with start_date_valid := true, end_date_valid := true }
  | _, _ => s

/-- The submit block of `main` in `src/form_validation2.py` (lines
285-295): success iff `get_validation_status()` is empty; on success the
`form_submitted` flag is set, on failure the messages are surfaced and the
session is unchanged. -/
def submitFormV2 (s : SessionV2) (t : Nat) : (Bool × List String) × SessionV2 :=
  let validation_messages := get_validation_status s t
  if validation_messages.isEmpty then
    ((true, []), { s with form_submitted := true })
  else
    ((false, validation_messages), s)

/-- `get_validation_status` as a state-passing action: the body of the
Python function only reads `st.session_state` (via `get` and attribute
reads) and never assigns to it, so the resulting session is the session it
was given. -/
def gvsAction (s : SessionV2) (t : Nat) : List String × SessionV2 :=
  (get_validation_status s t, s)

/-- The aggregate-validity conjunction of variant A, spelled out field by
field: every validator's verdict is true and the date range is strictly
increasing. -/
def allFieldsValid (inp : FormInputs) (t : Nat) : Prop :=
  (validate_name inp.first_name "First name").1 = true ∧
  (validate_name inp.last_name "Last name").1 = true ∧
  (validate_email inp.email).1 = true ∧
  (validate_phone inp.phone).1 = true ∧
  (validateAgeInt inp.age).1 = true ∧
  (validate_date inp.birth_date t).1 = true ∧
  inp.start_date < inp.end_date

/-- A validator result is either a success with empty message or a failure
with a nonempty message. -/
def validatorOk (r : Bool × String) : Prop :=
  (r.1 = true ∧ r.2 = "") ∨ (r.1 = false ∧ r.2 ≠ "")

/- ### Helper lemmas -/

theorem append_msg_ne (f m : String) (h : m.data ≠ []) : f ++ m ≠ "" := by
  intro e
  have : (f ++ m).data = "".data := congrArg String.data e
  simp [String.data_append] at this
  exact h this.2

theorem all_fst_iff_msgs (l : List (Bool × String)) :
    l.all (·.1) = true ↔ ((l.filter fun v => !v.1).map (·.2)) = [] := by
  simp [List.all_eq_true, List.map_eq_nil_iff, List.filter_eq_nil_iff]

theorem isFormValidV1_iff_allFieldsValid (inp : FormInputs) (t : Nat) :
    isFormValidV1 inp t = true ↔ allFieldsValid inp t := by
  simp [isFormValidV1, validationsV1, allFieldsValid, List.all_cons,
    Bool.and_eq_true, decide_eq_true_iff, and_assoc]

theorem isFormValidV1_iff_msgs_nil (inp : FormInputs) (t : Nat) :
    isFormValidV1 inp t = true ↔ computeMessagesV1 inp t = [] := by
  simp only [isFormValidV1, computeMessagesV1]
  exact all_fst_iff_msgs (validationsV1 inp t)

/- ### Claim theorems -/

/-- C2: in both variants, the aggregate validity verdict is true exactly
when the outstanding-message list is empty: in variant A
`all(v[0] for v in validations)` agrees with the emptiness of the list of
failure messages, and in variant B `all_valid = not get_validation_status()`
agrees with the emptiness of `get_validation_status()`. -/
theorem formValid_iff_no_messages :
    (∀ (inp : FormInputs) (t : Nat),
      isFormValidV1 inp t = true ↔ computeMessagesV1 inp t = []) ∧
    (∀ (s : SessionV2) (t : Nat),
      isFormValidV2 s t = true ↔ get_validation_status s t = []) := by
  constructor
  · exact isFormValidV1_iff_msgs_nil
  · intro s t
    simp [isFormValidV2, List.isEmpty_iff]

/-- C9: `get_validation_status` is a pure read of the session state: run as
a state-passing action it leaves the session unchanged, and running it a
second time on the resulting state yields the identical message list and
still the original state. -/
theorem get_validation_status_idempotent (s : SessionV2) (t : Nat) :
    (gvsAction s t).2 = s ∧
    (gvsAction (gvsAction s t).2 t).1 = (gvsAction s t).1 ∧
    (gvsAction (gvsAction s t).2 t).2 = s :=
  ⟨rfl, rfl, rfl⟩

/-- C8: `validate_phone` accepts `"(555) 123-4567"` under variant A, and
rejects `"555-CALL-NOW"` under variant A and under variant B. -/
theorem phone_scenarios :
    validate_phone "(555) 123-4567" = (true, "") ∧
    (validate_phone "555-CALL-NOW").1 = false ∧
    (validate_phone2 "555-CALL-NOW").1 = false := by
  decide

/-- C10: under both name-rule variants the validator accepts some nonempty
strings containing no letter at all — two hyphens and two spaces — since
the accepted classes include whitespace and hyphen and no rule demands a
letter. -/
theorem name_accepts_letterless_strings :
    (validate_name "--" "First name").1 = true ∧
    (validate_name2 "--" "First name").1 = true ∧
    (validate_name "  " "First name").1 = true ∧
    (validate_name2 "  " "First name").1 = true ∧
    "--" ≠ "" ∧ "  " ≠ "" ∧
    "--".toList.all (fun c => !c.isAlpha) = true ∧
    "  ".toList.all (fun c => !c.isAlpha) = true := by
  decide

/-- C3: every validator of both files returns either a success with empty
message or a failure with a nonempty message, for every raw input; and the
first violated rule wins — shown for `validate_name`, the one validator
whose rules (charset, minimum length) can be violated simultaneously: a
nonempty name failing the charset gets the charset message even when it is
also shorter than 2 characters. -/
theorem validators_verdict_message_invariant :
    (∀ s f, validatorOk (validate_name s f)) ∧
    (∀ s f, validatorOk (validate_name2 s f)) ∧
    (∀ s, validatorOk (validate_email s)) ∧
    (∀ s, validatorOk (validate_email2 s)) ∧
    (∀ s, validatorOk (validate_phone s)) ∧
    (∀ s, validatorOk (validate_phone2 s)) ∧
    (∀ s, validatorOk (validate_age s)) ∧
    (∀ a : Int, validatorOk (validateAgeInt a)) ∧
    (∀ a : Int, validatorOk (validate_age2 a)) ∧
    (∀ d t, validatorOk (validate_date d t)) ∧
    (∀ d t, validatorOk (validate_date2 d t)) ∧
    (∀ s f, s ≠ "" → nameMatchA s = false →
      validate_name s f =
        (false, f ++ " should only contain letters, spaces, and hyphens")) := by
  refine ⟨?_, ?_, ?_, ?_, ?_, ?_, ?_, ?_, ?_, ?_, ?_, ?_⟩
  · intro s f
    unfold validate_name validatorOk
    split_ifs <;>
      first
        | exact Or.inl ⟨rfl, rfl⟩
        | exact Or.inr ⟨rfl, append_msg_ne f _ (by decide)⟩
  · intro s f
    unfold validate_name2 validatorOk
    split_ifs <;>
      first
        | exact Or.inl ⟨rfl, rfl⟩
        | exact Or.inr ⟨rfl, append_msg_ne f _ (by decide)⟩
  · intro s
    unfold validate_email validatorOk
    split_ifs <;> first | exact Or.inl ⟨rfl, rfl⟩ | exact Or.inr ⟨rfl, by decide⟩
  · intro s
    unfold validate_email2 validatorOk
    split_ifs <;> first | exact Or.inl ⟨rfl, rfl⟩ | exact Or.inr ⟨rfl, by decide⟩
  · intro s
    unfold validate_phone validatorOk
    split_ifs <;> first | exact Or.inl ⟨rfl, rfl⟩ | exact Or.inr ⟨rfl, by decide⟩
  · intro s
    unfold validate_phone2 validatorOk
    split_ifs <;> first | exact Or.inl ⟨rfl, rfl⟩ | exact Or.inr ⟨rfl, by decide⟩
  · intro s
    unfold validate_age validatorOk
    cases pyInt s with
    | none => exact Or.inr ⟨rfl, by decide⟩
    | some a =>
      simp only
      split_ifs <;> first | exact Or.inl ⟨rfl, rfl⟩ | exact Or.inr ⟨rfl, by decide⟩
  · intro a
    unfold validateAgeInt validatorOk
    split_ifs <;> first | exact Or.inl ⟨rfl, rfl⟩ | exact Or.inr ⟨rfl, by decide⟩
  · intro a
    unfold validate_age2 validatorOk
    split_ifs <;> first | exact Or.inl ⟨rfl, rfl⟩ | exact Or.inr ⟨rfl, by decide⟩
  · intro d t
    unfold validate_date validatorOk
    split_ifs <;> first | exact Or.inl ⟨rfl, rfl⟩ | exact Or.inr ⟨rfl, by decide⟩
  · intro d t
    cases d with
    | none =>
      exact Or.inr ⟨rfl, (by decide : ("Date is required" : String) ≠ "")⟩
    | some d =>
      show validatorOk
        (if d > t then (false, "Date cannot be in the future") else (true, ""))
      unfold validatorOk
      split_ifs <;> first | exact Or.inl ⟨rfl, rfl⟩ | exact Or.inr ⟨rfl, by decide⟩
  · intro s f hs hm
    unfold validate_name
    rw [if_neg hs, hm]
    rfl

/-- Witness for C3, exercising the first-rule-wins clause at the concrete
input `"1"`, which violates both the charset rule and the length rule. -/
theorem validators_verdict_message_invariant_witness :
    ("1" ≠ "" ∧ nameMatchA "1" = false) ∧
    validate_name "1" "First name" =
      (false, "First name should only contain letters, spaces, and hyphens") :=
  ⟨by decide,
   validators_verdict_message_invariant.2.2.2.2.2.2.2.2.2.2.2 "1" "First name"
     (by decide) (by decide)⟩

/-- C1: from the Editing state, the submit action of variant A stores
`submitted = True` exactly when every field validator passes and
`start_date < end_date`; on any validation failure it reports
`success = false`, surfaces the (nonempty) list of failure messages, and
leaves the stored `form_data` — hence the Editing state — unchanged. -/
theorem submit_gates_on_full_validity (inp : FormInputs) (fd : FormData)
    (t : Nat) (h : fd.submitted = false) :
    ((submitForm inp fd t).data.submitted = true ↔ allFieldsValid inp t) ∧
    ((submitForm inp fd t).success = true ↔ allFieldsValid inp t) ∧
    (¬ allFieldsValid inp t →
      (submitForm inp fd t).success = false ∧
      (submitForm inp fd t).messages = computeMessagesV1 inp t ∧
      (submitForm inp fd t).messages ≠ [] ∧
      (submitForm inp fd t).data = fd) := by
  by_cases hv : isFormValidV1 inp t = true
  · have hall : allFieldsValid inp t :=
      (isFormValidV1_iff_allFieldsValid inp t).mp hv
    exact ⟨by simp [submitForm, hv, hall], by simp [submitForm, hv, hall],
      fun hn => absurd hall hn⟩
  · have hnall : ¬ allFieldsValid inp t :=
      fun hall => hv ((isFormValidV1_iff_allFieldsValid inp t).mpr hall)
    have hmsg : computeMessagesV1 inp t ≠ [] :=
      fun he => hv ((isFormValidV1_iff_msgs_nil inp t).mpr he)
    refine ⟨?_, ?_, fun _ => ⟨?_, ?_, ?_, ?_⟩⟩ <;>
      simp [submitForm, hv, h, hnall, hmsg]

/-- A fully valid set of widget inputs for variant A (the scenario of the
spec: age 25, start 2024-01-01, end 2024-01-02). -/
def inpValidA : FormInputs :=
  { first_name := "John", last_name := "Doe", email := "john@example.com",
    phone := "(555) 123-4567", age := 25, birth_date := toOrdinal 1990 5 5,
    start_date := toOrdinal 2024 1 1, end_date := toOrdinal 2024 1 2 }

/-- Witness for C1 at a concrete fully valid submission from the fresh
Editing state. -/
theorem submit_gates_on_full_validity_witness :
    (initFormData (toOrdinal 2026 10 12)).submitted = false ∧
    ((submitForm inpValidA (initFormData (toOrdinal 2026 10 12))
        (toOrdinal 2026 10 12)).success = true ↔
      allFieldsValid inpValidA (toOrdinal 2026 10 12)) ∧
    (submitForm inpValidA (initFormData (toOrdinal 2026 10 12))
        (toOrdinal 2026 10 12)).data.submitted = true :=
  ⟨rfl,
   (submit_gates_on_full_validity inpValidA
      (initFormData (toOrdinal 2026 10 12)) (toOrdinal 2026 10 12) rfl).2.1,
   by decide⟩

/-- C4: the date-range rule demands `start_date < end_date` strictly.  In
variant B a reversed-or-equal range sets both endpoint flags to false and a
proper range sets both to true, whatever the rest of the session holds; in
variant A a successful submit implies a strict range, and a reversed range
forces `success = false` with the date-range message among the surfaced
messages. -/
theorem date_range_strict_invalidates_both :
    (∀ (s : SessionV2) (a b : Nat), s.start_date = some a →
      s.end_date = some b → a ≥ b →
      (updateRangeFlags s).start_date_valid = false ∧
      (updateRangeFlags s).end_date_valid = false) ∧
    (∀ (s : SessionV2) (a b : Nat), s.start_date = some a →
      s.end_date = some b → a < b →
      (updateRangeFlags s).start_date_valid = true ∧
      (updateRangeFlags s).end_date_valid = true) ∧
    (∀ (inp : FormInputs) (fd : FormData) (t : Nat),
      (submitForm inp fd t).success = true → inp.start_date < inp.end_date) ∧
    (∀ (inp : FormInputs) (fd : FormData) (t : Nat),
      inp.end_date ≤ inp.start_date →
      (submitForm inp fd t).success = false ∧
      "Start date must be before end date" ∈ (submitForm inp fd t).messages) := by
  refine ⟨?_, ?_, ?_, ?_⟩
  · intro s a b ha hb hab
    simp [updateRangeFlags, ha, hb, hab]
  · intro s a b ha hb hab
    simp [updateRangeFlags, ha, hb, Nat.not_le.mpr hab]
  · intro inp fd t hs
    by_cases hv : isFormValidV1 inp t = true
    · exact ((isFormValidV1_iff_allFieldsValid inp t).mp hv).2.2.2.2.2.2
    · simp [submitForm, hv] at hs
  · intro inp fd t hge
    have hv : ¬ isFormValidV1 inp t = true := fun hv =>
      absurd ((isFormValidV1_iff_allFieldsValid inp t).mp hv).2.2.2.2.2.2
        (Nat.not_lt.mpr hge)
    have hd : decide (inp.start_date < inp.end_date) = false :=
      decide_eq_false (Nat.not_lt.mpr hge)
    refine ⟨by simp [submitForm, hv], ?_⟩
    have hmem : ((decide (inp.start_date < inp.end_date),
        "Start date must be before end date") : Bool × String) ∈
        validationsV1 inp t := by simp [validationsV1]
    have : "Start date must be before end date" ∈ computeMessagesV1 inp t :=
      List.mem_map.mpr ⟨_, List.mem_filter.mpr ⟨hmem, by simp [hd]⟩, rfl⟩
    simpa [submitForm, hv] using this

/-- A variant-B session holding the reversed range of the spec scenario
(start 2024-02-01, end 2024-01-01), with the endpoint flags previously true
and the birth-date flag true, to exhibit independence from the fields' own
validity. -/
def sessRevB : SessionV2 :=
  { first_name := "John", last_name := "Doe", email := "john@example.com",
    phone := "5551234567", age := 25, birth_date := some (toOrdinal 1990 5 5),
    start_date := some (toOrdinal 2024 2 1),
    end_date := some (toOrdinal 2024 1 1),
    first_name_valid := true, last_name_valid := true, email_valid := true,
    phone_valid := true, age_valid := true, birth_date_valid := true,
    start_date_valid := true, end_date_valid := true, form_submitted := false }

/-- The widget inputs of variant A with the reversed range of the spec
scenario. -/
def inpRevA : FormInputs :=
  { inpValidA with start_date := toOrdinal 2024 2 1,
                   end_date := toOrdinal 2024 1 1 }

/-- Witness for C4 at the spec's reversed-range scenario. -/
theorem date_range_strict_invalidates_both_witness :
    (sessRevB.start_date = some (toOrdinal 2024 2 1) ∧
     sessRevB.end_date = some (toOrdinal 2024 1 1) ∧
     toOrdinal 2024 2 1 ≥ toOrdinal 2024 1 1 ∧
     inpRevA.end_date ≤ inpRevA.start_date) ∧
    ((updateRangeFlags sessRevB).start_date_valid = false ∧
     (updateRangeFlags sessRevB).end_date_valid = false) ∧
    ((submitForm inpRevA (initFormData (toOrdinal 2026 10 12))
        (toOrdinal 2026 10 12)).success = false ∧
     "Start date must be before end date" ∈
       (submitForm inpRevA (initFormData (toOrdinal 2026 10 12))
         (toOrdinal 2026 10 12)).messages) :=
  ⟨⟨rfl, rfl, by decide, by decide⟩,
   date_range_strict_invalidates_both.1 sessRevB _ _ rfl rfl (by decide),
   date_range_strict_invalidates_both.2.2.2 inpRevA
     (initFormData (toOrdinal 2026 10 12)) (toOrdinal 2026 10 12) (by decide)⟩

/-- C5: variant A's `validate_date` accepts exactly the window from
1990-01-01 to `today + 5 * 365` days (the code's realisation of "today +
5 years"), rejecting earlier dates and later dates with two distinct
messages. -/
theorem validate_date_window (d t : Nat) :
    ((validate_date d t).1 = true ↔
      toOrdinal 1990 1 1 ≤ d ∧ d ≤ t + 5 * 365) ∧
    (d < toOrdinal 1990 1 1 →
      validate_date d t = (false, "Date must be after 1990-01-01")) ∧
    (toOrdinal 1990 1 1 ≤ d → t + 5 * 365 < d →
      validate_date d t =
        (false, "Date cannot be more than 5 years in the future")) ∧
    ("Date must be after 1990-01-01" : String) ≠
      "Date cannot be more than 5 years in the future" := by
  refine ⟨?_, ?_, ?_, by decide⟩
  · unfold validate_date
    split_ifs with h1 h2 <;> simp <;> omega
  · intro h1
    simp [validate_date, h1]
  · intro h1 h2
    rw [validate_date, if_neg (by omega), if_pos (by omega)]

/-- Witness for C5: a pre-1990 date, a far-future date and an in-window
date, evaluated at today = 2026-10-12. -/
theorem validate_date_window_witness :
    (toOrdinal 1980 1 1 < toOrdinal 1990 1 1 ∧
     toOrdinal 1990 1 1 ≤ toOrdinal 2035 1 1 ∧
     toOrdinal 2026 10 12 + 5 * 365 < toOrdinal 2035 1 1 ∧
     toOrdinal 1990 1 1 ≤ toOrdinal 2024 1 1 ∧
     toOrdinal 2024 1 1 ≤ toOrdinal 2026 10 12 + 5 * 365) ∧
    validate_date (toOrdinal 1980 1 1) (toOrdinal 2026 10 12) =
      (false, "Date must be after 1990-01-01") ∧
    validate_date (toOrdinal 2035 1 1) (toOrdinal 2026 10 12) =
      (false, "Date cannot be more than 5 years in the future") ∧
    (validate_date (toOrdinal 2024 1 1) (toOrdinal 2026 10 12)).1 = true :=
  ⟨by decide,
   (validate_date_window (toOrdinal 1980 1 1) (toOrdinal 2026 10 12)).2.1
     (by decide),
   (validate_date_window (toOrdinal 2035 1 1) (toOrdinal 2026 10 12)).2.2.1
     (by decide) (by decide),
   (validate_date_window (toOrdinal 2024 1 1) (toOrdinal 2026 10 12)).1.mpr
     (by decide)⟩

/-- C6: whatever the prior state, the clear action of variant A resets
every field to its default — today's date for the three date fields, the
empty string for the text fields and for `age` — and resets `submitted` to
false (the Editing state); the result does not depend on the prior state. -/
theorem clear_resets_to_defaults (fd fd' : FormData) (t : Nat) :
    (clearForm fd t).first_name = "" ∧
    (clearForm fd t).last_name = "" ∧
    (clearForm fd t).email = "" ∧
    (clearForm fd t).phone = "" ∧
    (clearForm fd t).age = AgeVal.emptyStr ∧
    (clearForm fd t).birth_date = t ∧
    (clearForm fd t).start_date = t ∧
    (clearForm fd t).end_date = t ∧
    (clearForm fd t).submitted = false ∧
    clearForm fd t = clearForm fd' t :=
  ⟨rfl, rfl, rfl, rfl, rfl, rfl, rfl, rfl, rfl, rfl⟩

/-- C7: when the age input fails to parse as an integer (`int(age)` raises
`ValueError`, modelled by `pyInt = none`), `validate_age` returns an
ordinary invalid verdict with the generic message — the failure is total
and never escapes as an exception. -/
theorem age_malformed_input_not_fatal (s : String) (h : pyInt s = none) :
    validate_age s = (false, "Please enter a valid number") := by
  simp [validate_age, h]

/-- Witness for C7 at the non-numeric input `"abc"`. -/
theorem age_malformed_input_not_fatal_witness :
    pyInt "abc" = none ∧
    validate_age "abc" = (false, "Please enter a valid number") :=
  ⟨by decide, age_malformed_input_not_fatal "abc" (by decide)⟩
